import Mathlib

/-!
Shallow embedding of the cart/checkout/order subsystem of the
`luqastw/ecommerce-api` repository, and proofs about it.

The embedded code lives in:
  * `src/services/cart_service.py`  (class CartService)
  * `src/services/order_service.py` (class OrderService)
  * `src/models/{cart,order,product,enums}.py`
  * `src/schemas/cart.py`

Modelling conventions:
  * SQL `Numeric(10,2)` decimals are represented exactly as an integer number
    of hundredths ("cents"): the decimal 3500.00 is the integer 350000.
  * The relational store is a record of lists of rows (`Store`); an ORM
    session is a pair of stores (`Session`): the `committed` database plus
    the session's `current` working view.  `commit` publishes the view,
    `rollback` discards it.  When a service raises, the caller
    (`get_db` in `src/db/session.py`) closes the session, so the observable
    database after a failed call is the `committed` store.
  * SQLAlchemy `query(...).filter(...).first()` becomes `List.find?`,
    `.all()` becomes `List.filter`, in-place row mutation becomes a
    replace-by-primary-key map over the row list, and autoincrement ids are
    drawn from a `next_id` counter.
  * `raise HTTPException` becomes an `Except`/`Option` error value; the
    distinct raise sites of the services are the constructors of `ApiError`.
-/

namespace ECommerce

/-- Order status enum, from `OrderStatus` in `src/models/enums.py`. -/
inductive OrderStatus where
  | PENDING
  | PAID
  | SHIPPED
  | DELIVERED
  | CANCELLED
deriving DecidableEq, Repr, Fintype

/-- Exact representation of SQL `Numeric(10,2)` values as integer hundredths. -/
abbrev Decimal := Int

/-- A row of the `products` table (`src/models/product.py`).
`price` is nullable in the schema; the cart/checkout flows embedded here are
only exercised on priced products, so it is kept as a plain value. -/
structure Product where
  id : Nat
  name : String
  price : Decimal
  stock : Int
  is_active : Bool
deriving DecidableEq, Repr

/-- A row of the `carts` table (`src/models/cart.py`): one cart per user. -/
structure Cart where
  id : Nat
  user_id : Nat
deriving DecidableEq, Repr

/-- A row of the `cart_items` table (`src/models/cart.py`). -/
structure CartItem where
  id : Nat
  cart_id : Nat
  product_id : Nat
  quantity : Nat
  price_at_add : Decimal
deriving DecidableEq, Repr

/-- A row of the `orders` table (`src/models/order.py`). -/
structure Order where
  id : Nat
  user_id : Nat
  total_price : Decimal
  status : OrderStatus
deriving DecidableEq, Repr

/-- An order line as constructed by `OrderService.create_order`
(`OrderItem(order_id=..., product_id=..., product_name=..., quantity=...,
price=...)`).  The column-level declaration of the `order_items` table is
embedded separately as `order_item_columns`, because the model class in
`src/models/order.py` does not actually match this constructor call. -/
structure OrderItem where
  order_id : Nat
  product_id : Nat
  product_name : String
  quantity : Nat
  price : Decimal
deriving DecidableEq, Repr

/-- The relational store: one list of rows per table, plus the autoincrement
counter shared by freshly created rows. -/
structure Store where
  products : List Product
  carts : List Cart
  cart_items : List CartItem
  orders : List Order
  order_items : List OrderItem
  next_id : Nat
deriving DecidableEq, Repr

/-- An ORM session: the committed database plus the session's working view. -/
structure Session where
  committed : Store
  current : Store
deriving DecidableEq, Repr

/-- `db.commit()`: publish the working view. -/
def Session.commit (s : Session) : Session :=
  { committed := s.current, current := s.current }

/-- `db.rollback()` (and the implicit rollback performed by `db.close()` in
`get_db` when a request raises): discard the working view. -/
def Session.rollback (s : Session) : Session :=
  { committed := s.committed, current := s.committed }

/-- Request body of `POST /cart/items` (`CartItemCreate` in
`src/schemas/cart.py`). -/
structure CartItemCreate where
  product_id : Nat
  quantity : Nat
deriving DecidableEq, Repr

/-- Request body of `PATCH /cart/items/{id}` (`CartItemUpdate` in
`src/schemas/cart.py`). -/
structure CartItemUpdate where
  quantity : Nat
deriving DecidableEq, Repr

/-- Pydantic field validation on `CartItemBase.quantity`
(`Field(gt=0, le=100)` in `src/schemas/cart.py`). -/
def schema_valid_create (d : CartItemCreate) : Prop :=
  0 < d.quantity ∧ d.quantity ≤ 100

/-- Pydantic field validation on `CartItemUpdate.quantity`
(`Field(gt=0, le=100)` in `src/schemas/cart.py`). -/
def schema_valid_update (d : CartItemUpdate) : Prop :=
  0 < d.quantity ∧ d.quantity ≤ 100

/-- The distinct raise sites of `CartService` and `OrderService`. -/
inductive ApiError where
  /-- `add_item`: 404, product absent or inactive. -/
  | productNotFoundOrInactive (product_id : Nat)
  /-- `add_item`: 400, insufficient stock for a new line. -/
  | insufficientStockNew (available : Int) (requested : Nat)
  /-- `add_item`: 400, insufficient stock for an aggregating line. -/
  | insufficientStockAgg (youHave : Nat) (available : Int)
  /-- `update_item_quantity` / `remove_item`: 404, item absent or foreign. -/
  | itemNotFoundInCart
  /-- `update_item_quantity`: 400, insufficient stock. -/
  | insufficientStockUpdate
  /-- `update_item_quantity`: the product query returned `None`; the source
  would then crash with `AttributeError` on `product.stock`. -/
  | noneProductAttributeError
  /-- `create_order`: 400, no cart or no cart items. -/
  | emptyCart
  /-- `create_order`: 400, a line's product is gone or inactive. -/
  | productUnavailable (name : String)
  /-- `create_order`: 400, a line's quantity exceeds current stock. -/
  | insufficientStockCheckout (name : String) (available : Int) (inCart : Nat)
  /-- `create_order`: 500, stock went negative while decrementing. -/
  | stockUpdateInternalError (name : String)
deriving DecidableEq, Repr

/-- `db.query(Cart).filter(Cart.user_id == user_id).first()`. -/
def Store.cartOf (s : Store) (user_id : Nat) : Option Cart :=
  s.carts.find? (fun c => c.user_id == user_id)

/-- The `Cart.items` relationship: the cart item rows of one cart. -/
def Store.itemsOfCart (s : Store) (cart_id : Nat) : List CartItem :=
  s.cart_items.filter (fun ci => ci.cart_id == cart_id)

/-- `db.query(Product).filter(Product.id == product_id).first()`; also the
`CartItem.product` relationship. -/
def Store.productById (s : Store) (product_id : Nat) : Option Product :=
  s.products.find? (fun p => p.id == product_id)

/-- In-place ORM mutation of a cart item row, persisted on commit: replace
the row with the same primary key. -/
def replaceCartItem (l : List CartItem) (it : CartItem) : List CartItem :=
  l.map (fun ci => if ci.id == it.id then it else ci)

/-- `CartService.get_or_create_cart` (`src/services/cart_service.py`).
Creating the missing cart is committed immediately, as in the source. -/
def get_or_create_cart (sess : Session) (user_id : Nat) : Session × Cart :=
  match sess.current.cartOf user_id with
  | some cart => (sess, cart)
  | none =>
    let cart : Cart := { id := sess.current.next_id, user_id := user_id }
    let s := { sess.current with
               carts := sess.current.carts ++ [cart],
               next_id := sess.current.next_id + 1 }
    (Session.commit { sess with current := s }, cart)

/-- `CartService.add_item` (`src/services/cart_service.py`).  The product
query filters on `Product.is_active == True`; the add-time stock check runs
before the cart lookup; an aggregating add re-checks stock against the
summed quantity and then mutates only the existing row's quantity. -/
def add_item (sess : Session) (user_id : Nat) (item_data : CartItemCreate) :
    Session × Except ApiError CartItem :=
  match sess.current.products.find?
      (fun p => p.id == item_data.product_id && p.is_active) with
  | none => (sess, .error (.productNotFoundOrInactive item_data.product_id))
  | some product =>
    if product.stock < (item_data.quantity : Int) then
      (sess, .error (.insufficientStockNew product.stock item_data.quantity))
    else
      let r := get_or_create_cart sess user_id
      match r.1.current.cart_items.find?
          (fun ci => ci.cart_id == r.2.id &&
                     ci.product_id == item_data.product_id) with
      | some existing_item =>
        let new_quantity := existing_item.quantity + item_data.quantity
        if product.stock < (new_quantity : Int) then
          (r.1, .error (.insufficientStockAgg existing_item.quantity product.stock))
        else
          let updated := { existing_item with quantity := new_quantity }
          let s := { r.1.current with
                     cart_items := replaceCartItem r.1.current.cart_items updated }
          (Session.commit { r.1 with current := s }, .ok updated)
      | none =>
        let cart_item : CartItem :=
          { id := r.1.current.next_id, cart_id := r.2.id,
            product_id := item_data.product_id,
            quantity := item_data.quantity,
            price_at_add := product.price }
        let s := { r.1.current with
                   cart_items := r.1.current.cart_items ++ [cart_item],
                   next_id := r.1.current.next_id + 1 }
        (Session.commit { r.1 with current := s }, .ok cart_item)

/-- The ownership-joined lookup of `update_item_quantity` / `remove_item`:
`query(CartItem).join(Cart).filter(CartItem.id == item_id,
Cart.user_id == user_id).first()`. -/
def find_cart_item_for_user (s : Store) (user_id item_id : Nat) : Option CartItem :=
  s.cart_items.find? (fun ci =>
    ci.id == item_id &&
    (s.carts.find? (fun c => c.id == ci.cart_id)).any
      (fun c => c.user_id == user_id))

/-- `CartService.update_item_quantity` (`src/services/cart_service.py`).
The product is re-fetched by id only — with no `is_active` filter — and the
sole business check is `product.stock < update_data.quantity`. -/
def update_item_quantity (sess : Session) (user_id item_id : Nat)
    (update_data : CartItemUpdate) : Session × Except ApiError CartItem :=
  match find_cart_item_for_user sess.current user_id item_id with
  | none => (sess, .error .itemNotFoundInCart)
  | some cart_item =>
    match sess.current.productById cart_item.product_id with
    | none => (sess, .error .noneProductAttributeError)
    | some product =>
      if product.stock < (update_data.quantity : Int) then
        (sess, .error .insufficientStockUpdate)
      else
        let updated := { cart_item with quantity := update_data.quantity }
        let s := { sess.current with
                   cart_items := replaceCartItem sess.current.cart_items updated }
        (Session.commit { sess with current := s }, .ok updated)

/-- `CartService.clear_cart` (`src/services/cart_service.py`): delete every
item of the user's cart and commit; a no-op when no cart exists. -/
def clear_cart (sess : Session) (user_id : Nat) : Session :=
  match sess.current.cartOf user_id with
  | none => sess
  | some cart =>
    let s := { sess.current with
               cart_items := sess.current.cart_items.filter
                 (fun ci => !(ci.cart_id == cart.id)) }
    Session.commit { sess with current := s }

/-- The per-line re-validation loop of `create_order`
(`src/services/order_service.py` lines 76–93): product gone or inactive, then
stock against quantity. -/
def check_line (s : Store) (ci : CartItem) : Option ApiError :=
  match s.productById ci.product_id with
  | none => some (.productUnavailable "desconhecido")
  | some product =>
    if !product.is_active then
      some (.productUnavailable product.name)
    else if product.stock < (ci.quantity : Int) then
      some (.insufficientStockCheckout product.name product.stock ci.quantity)
    else
      none

/-- `total_price = sum(Decimal(str(item.price_at_add)) * item.quantity for
item in cart.items)` — exact decimal arithmetic. -/
def order_total (items : List CartItem) : Decimal :=
  (items.map (fun item => item.price_at_add * (item.quantity : Int))).sum

/-- `cart_item.product.name` for a validated line; after `check_line`
succeeded the product exists, so the `none` branch is unreachable there. -/
def productNameOf (s : Store) (ci : CartItem) : String :=
  match s.productById ci.product_id with
  | some p => p.name
  | none => ""

/-- The stock-decrement loop of `create_order`
(`src/services/order_service.py` lines 120–129): `product.stock -=
cart_item.quantity`, then `if product.stock < 0: db.rollback(); raise`. -/
def update_stock (sess : Session) : List CartItem → Session × Option ApiError
  | [] => (sess, none)
  | ci :: rest =>
    match sess.current.productById ci.product_id with
    | none => (sess, some .noneProductAttributeError)
    | some product =>
      let newStock := product.stock - (ci.quantity : Int)
      let s := { sess.current with
                 products := sess.current.products.map
                   (fun p => if p.id == product.id
                             then { p with stock := newStock } else p) }
      let sess1 := { sess with current := s }
      if newStock < 0 then
        (Session.rollback sess1, some (.stockUpdateInternalError product.name))
      else
        update_stock sess1 rest

/-- `OrderService.create_order` (`src/services/order_service.py`).

Faithful to the source, including its slip at line 108: the snapshot loop is
written `for cart_items in cart.items:` but its body reads `cart_item`, the
variable left over from the validation loop of lines 76–93, which is still
bound to the LAST cart line once that loop finishes.  Every OrderItem
therefore snapshots the last line.  The final re-query also mirrors the
source, which reloads the order by `user_id` alone with `.first()`. -/
def create_order (sess : Session) (user_id : Nat) :
    Session × Except ApiError (Option Order) :=
  match sess.current.cartOf user_id with
  | none => (sess, .error .emptyCart)
  | some cart =>
    let items := sess.current.itemsOfCart cart.id
    match items.getLast? with
    | none => (sess, .error .emptyCart)
    | some last_line =>
      match items.findSome? (check_line sess.current) with
      | some e => (sess, .error e)
      | none =>
        let total_price := order_total items
        let order : Order := { id := sess.current.next_id, user_id := user_id,
                               total_price := total_price,
                               status := .PENDING }
        let s1 := { sess.current with
                    orders := sess.current.orders ++ [order],
                    next_id := sess.current.next_id + 1 }
        let snapshot : OrderItem :=
          { order_id := order.id,
            product_id := last_line.product_id,
            product_name := productNameOf sess.current last_line,
            quantity := last_line.quantity,
            price := last_line.price_at_add }
        let s2 := { s1 with order_items := s1.order_items ++ items.map (fun _ => snapshot) }
        match update_stock { sess with current := s2 } items with
        | (sess3, some e) => (sess3, .error e)
        | (sess3, none) =>
          let sess4 := clear_cart sess3 user_id
          let sess5 := Session.commit sess4
          (sess5, .ok (sess5.current.orders.find? (fun o => o.user_id == user_id)))

/-- `OrderService._validade_status_transition`
(`src/services/order_service.py` lines 199–233): terminal check, then a
lookup table `dict.get(current, [])`, then membership. -/
def _validade_status_transition (current_status new_status : OrderStatus) : Bool :=
  if current_status == OrderStatus.DELIVERED ||
     current_status == OrderStatus.CANCELLED then
    false
  else
    let allowed_statuses : List OrderStatus :=
      match current_status with
      | .PENDING => [.PAID, .CANCELLED]
      | .PAID => [.SHIPPED, .CANCELLED]
      | .SHIPPED => [.DELIVERED]
      | _ => []
    allowed_statuses.contains new_status

/-- Declared shape of one column of a mapped table. -/
structure ColumnSpec where
  name : String
  fk_target : Option String
  on_delete : Option String
  nullable : Bool
deriving DecidableEq, Repr

/-- The column declarations of the `order_items` table, transcribed from
`class OrderItem` in `src/models/order.py` (lines 117–145) together with the
`id`/timestamp columns inherited from `BaseModel` in `src/db/base.py`.
Note what the source actually declares: the column NAMED `order_id` is a
nullable `ForeignKey("products.id", ondelete="SET NULL")`, and no
`product_id` column exists at all. -/
def order_item_columns : List ColumnSpec :=
  [ { name := "id", fk_target := none, on_delete := none, nullable := false },
    { name := "created_at", fk_target := none, on_delete := none, nullable := false },
    { name := "updated_at", fk_target := none, on_delete := none, nullable := false },
    { name := "order_id", fk_target := some "products.id",
      on_delete := some "SET NULL", nullable := true },
    { name := "product_name", fk_target := none, on_delete := none, nullable := false },
    { name := "quantity", fk_target := none, on_delete := none, nullable := false },
    { name := "price", fk_target := none, on_delete := none, nullable := false } ]

/-- Sum of `price × quantity` over the order items of one order — the
quantity the spec equates with `Order.total_price`. -/
def order_items_total (s : Store) (oid : Nat) : Decimal :=
  ((s.order_items.filter (fun oi => oi.order_id == oid)).map
    (fun oi => oi.price * (oi.quantity : Int))).sum

/-- A catalog and a two-line cart for user 7: product 1 ("A", price 100.00,
stock 10) with quantity 3 at price-at-add 100.00, and product 2 ("B", price
50.00, stock 10) with quantity 2 at price-at-add 50.00. -/
def demo_store : Store :=
  { products :=
      [ { id := 1, name := "A", price := 10000, stock := 10, is_active := true },
        { id := 2, name := "B", price := 5000, stock := 10, is_active := true } ],
    carts := [ { id := 1, user_id := 7 } ],
    cart_items :=
      [ { id := 1, cart_id := 1, product_id := 1, quantity := 3, price_at_add := 10000 },
        { id := 2, cart_id := 1, product_id := 2, quantity := 2, price_at_add := 5000 } ],
    orders := [], order_items := [], next_id := 3 }

/-- A fresh session over `demo_store`. -/
def demo_session : Session := { committed := demo_store, current := demo_store }

/-- A catalog holding one product with stock 200, price 1.00, and no cart. -/
def c8_store : Store :=
  { products := [ { id := 1, name := "P", price := 100, stock := 200, is_active := true } ],
    carts := [], cart_items := [], orders := [], order_items := [], next_id := 1 }

/-- Two consecutive `add_item` calls for product 1 with quantity 100 each,
for user 7, starting from a fresh session over `c8_store`.  Both request
bodies pass the Pydantic per-request bound `quantity ≤ 100`. -/
def c8_after_two_adds : Session × Except ApiError CartItem :=
  add_item (add_item { committed := c8_store, current := c8_store } 7
    { product_id := 1, quantity := 100 }).1 7 { product_id := 1, quantity := 100 }

/-- Total quantity of the cart lines referencing one product — the amount by
which a full run of the stock-decrement loop lowers that product's stock. -/
def total_quantity (items : List CartItem) (pid : Nat) : Int :=
  ((items.filter (fun ci => ci.product_id == pid)).map
    (fun ci => (ci.quantity : Int))).sum

/-- Structural invariants of the `cart_items` table: primary keys are
unique and below the autoincrement counter (database-maintained), and — the
claim's invariant — the (cart, product) pairs of the rows are unique. -/
def cart_items_wf (s : Store) : Prop :=
  (s.cart_items.map (fun ci => ci.id)).Nodup ∧
  (∀ ci ∈ s.cart_items, ci.id < s.next_id) ∧
  (s.cart_items.map (fun ci => (ci.cart_id, ci.product_id))).Nodup

/-- The store reached after adding product 1 with quantity 2 to user 7's
initially empty cart: one cart line, quantity 2. -/
def c6_store : Store :=
  { products := [ { id := 1, name := "P", price := 100, stock := 10, is_active := true } ],
    carts := [ { id := 1, user_id := 7 } ],
    cart_items := [ { id := 2, cart_id := 1, product_id := 1, quantity := 2, price_at_add := 100 } ],
    orders := [], order_items := [], next_id := 3 }

/-- A fresh session over `c6_store`. -/
def c6_session : Session := { committed := c6_store, current := c6_store }

/-- The single-line cart of the spec's side-effect example: product 1
("P", stock 10), quantity 2 in user 7's cart. -/
def c5_store : Store :=
  { products := [ { id := 1, name := "P", price := 100, stock := 10, is_active := true } ],
    carts := [ { id := 1, user_id := 7 } ],
    cart_items := [ { id := 2, cart_id := 1, product_id := 1, quantity := 2, price_at_add := 100 } ],
    orders := [], order_items := [], next_id := 3 }

/-- A fresh session over `c5_store`. -/
def c5_session : Session := { committed := c5_store, current := c5_store }

/-- A cart whose one line (quantity 2) now exceeds the product's current
stock (1) — the checkout-time stock recheck must fail on it. -/
def c2_store : Store :=
  { products := [ { id := 1, name := "P", price := 100, stock := 1, is_active := true } ],
    carts := [ { id := 1, user_id := 7 } ],
    cart_items := [ { id := 1, cart_id := 1, product_id := 1, quantity := 2, price_at_add := 100 } ],
    orders := [], order_items := [], next_id := 2 }

/-- A fresh session over `c2_store`. -/
def c2_session : Session := { committed := c2_store, current := c2_store }

/-- A store whose product 1 has been deactivated while cart item 5
(quantity 2) for it is still in user 7's cart. -/
def c10_store : Store :=
  { products := [ { id := 1, name := "P", price := 100, stock := 10, is_active := false } ],
    carts := [ { id := 1, user_id := 7 } ],
    cart_items := [ { id := 5, cart_id := 1, product_id := 1, quantity := 2, price_at_add := 100 } ],
    orders := [], order_items := [], next_id := 6 }

/-- A fresh session over `c10_store`. -/
def c10_session : Session := { committed := c10_store, current := c10_store }

/-- A cart line for product 1 added when the catalog price was 1.00
(`price_at_add` 1.00); the catalog price has since risen to 9.99.  A second,
unrelated line (id 3) is present to observe the frame. -/
def c7_store : Store :=
  { products := [ { id := 1, name := "P", price := 999, stock := 10, is_active := true } ],
    carts := [ { id := 1, user_id := 7 } ],
    cart_items :=
      [ { id := 2, cart_id := 1, product_id := 1, quantity := 2, price_at_add := 100 },
        { id := 3, cart_id := 1, product_id := 4, quantity := 1, price_at_add := 50 } ],
    orders := [], order_items := [], next_id := 4 }

/-- A fresh session over `c7_store`. -/
def c7_session : Session := { committed := c7_store, current := c7_store }

/-- C4: the status-transition validator is a pure function of
`(current_status, requested_status)` — embedded here as the pure function
`_validade_status_transition` — and over all 25 ordered pairs of statuses it
returns `true` exactly for PENDING→PAID, PENDING→CANCELLED, PAID→SHIPPED,
PAID→CANCELLED and SHIPPED→DELIVERED, and `false` for the other 20 pairs. -/
theorem C4_transition_table_exhaustive :
    ∀ c n : OrderStatus,
      _validade_status_transition c n = true ↔
        (c, n) ∈ [(OrderStatus.PENDING, OrderStatus.PAID),
                  (OrderStatus.PENDING, OrderStatus.CANCELLED),
                  (OrderStatus.PAID, OrderStatus.SHIPPED),
                  (OrderStatus.PAID, OrderStatus.CANCELLED),
                  (OrderStatus.SHIPPED, OrderStatus.DELIVERED)] := by
  decide

/-- C9: the claim — a non-nullable owning reference to the Order plus a
nullable product reference that is cleared on product deletion — is false of
the declared `order_items` table: no column references `orders.id` at all
(so no owning order reference, nullable or not, exists), no column named
`product_id` exists, and the one foreign key, carried by the column
misnamed `order_id`, is a nullable reference to `products.id`. -/
theorem C9_order_item_columns_diverge :
    (order_item_columns.all
      (fun c => c.fk_target ≠ some "orders.id") = true) ∧
    (order_item_columns.all (fun c => c.name ≠ "product_id") = true) ∧
    ((order_item_columns.find? (fun c => c.name == "order_id")) =
      some { name := "order_id", fk_target := some "products.id",
             on_delete := some "SET NULL", nullable := true }) := by
  refine ⟨by decide, by decide, by decide⟩

/-- The stock-decrement loop never commits: whatever it does to the working
view, the committed database is untouched (its only session operation
besides view updates is the `rollback` on the negative-stock branch). -/
theorem update_stock_committed (items : List CartItem) (sess : Session) :
    (update_stock sess items).1.committed = sess.committed := by
  induction items generalizing sess with
  | nil => rfl
  | cons ci rest ih =>
    unfold update_stock
    cases h : sess.current.productById ci.product_id with
    | none => rfl
    | some product =>
      dsimp only
      split
      · rfl
      · exact ih _

/-- Reformulation of `update_stock_committed` against an equation on the
returned pair. -/
theorem update_stock_eq_committed {sess sess3 : Session} {items : List CartItem}
    {r2 : Option ApiError} (h : update_stock sess items = (sess3, r2)) :
    sess3.committed = sess.committed := by
  have h1 := update_stock_committed items sess
  rw [h] at h1
  exact h1

/-- Any run of `create_order` either returns a success value or leaves the
committed database exactly as it was: every raise site executes before the
first `commit`, except the negative-stock one, which performs an explicit
`rollback`. -/
theorem create_order_ok_or_committed_unchanged (sess : Session) (user_id : Nat) :
    (∃ v, (create_order sess user_id).2 = .ok v) ∨
    ((create_order sess user_id).2.isOk = false ∧
      (create_order sess user_id).1.committed = sess.committed) := by
  unfold create_order
  split
  · exact .inr ⟨rfl, rfl⟩
  · dsimp only
    split
    · exact .inr ⟨rfl, rfl⟩
    · split
      · exact .inr ⟨rfl, rfl⟩
      · split
        next sess3 e heq =>
          refine .inr ⟨rfl, ?_⟩
          have h1 := update_stock_eq_committed heq
          exact h1
        next sess3 heq => exact .inl ⟨_, rfl⟩

/-- C2: every failing invocation of `create_order` — cart absent or empty,
a line's product missing or inactive, a line's quantity above current stock
(and even the internal negative-stock abort) — leaves the committed store
exactly as it was before the call: same orders, same order items, same
products (hence stocks), same carts and cart items.  The committed store is
what the next request observes, since `get_db` closes (and thereby rolls
back) the session when the service raises. -/
theorem C2_checkout_failure_full_rollback (sess : Session) (user_id : Nat)
    (e : ApiError) (h : (create_order sess user_id).2 = .error e) :
    (create_order sess user_id).1.committed = sess.committed := by
  rcases create_order_ok_or_committed_unchanged sess user_id with ⟨v, hv⟩ | ⟨_, hc⟩
  · rw [hv] at h; cases h
  · exact hc

/-- C2, witness: a checkout that fails the stock recheck (cart line wants 2,
stock is 1) raises insufficient-stock and, by `C2_checkout_failure_full_rollback`,
leaves the committed store untouched. -/
theorem C2_checkout_failure_full_rollback_witness :
    (create_order c2_session 7).2 =
      .error (.insufficientStockCheckout "P" 1 2) ∧
    (create_order c2_session 7).1.committed = c2_session.committed :=
  ⟨rfl, C2_checkout_failure_full_rollback c2_session 7
    (.insufficientStockCheckout "P" 1 2) rfl⟩

/-- C10: `update_item_quantity` never consults the product's `is_active`
flag: whenever the ownership-joined lookup finds the cart item and the
product's current stock covers the new quantity, the update succeeds and
sets exactly that quantity — the product record `p` carries an arbitrary
`is_active` value that the conclusion does not depend on. -/
theorem C10_update_quantity_ignores_active_flag
    (sess : Session) (user_id item_id : Nat) (update_data : CartItemUpdate)
    (ci : CartItem) (p : Product)
    (hfind : find_cart_item_for_user sess.current user_id item_id = some ci)
    (hprod : sess.current.productById ci.product_id = some p)
    (hstock : (update_data.quantity : Int) ≤ p.stock) :
    (update_item_quantity sess user_id item_id update_data).2 =
      .ok { ci with quantity := update_data.quantity } := by
  unfold update_item_quantity
  rw [hfind]
  dsimp only
  rw [hprod]
  dsimp only
  rw [if_neg (not_lt.mpr hstock)]

/-- C10, witness: product 1 of `c10_store` is inactive, yet updating cart
item 5 (owned by user 7) to quantity 3 succeeds because stock 10 covers it. -/
theorem C10_update_quantity_ignores_active_flag_witness :
    ((c10_store.productById 1).map Product.is_active = some false) ∧
    (update_item_quantity c10_session 7 5 { quantity := 3 }).2 =
      .ok { id := 5, cart_id := 1, product_id := 1, quantity := 3, price_at_add := 100 } :=
  ⟨rfl, C10_update_quantity_ignores_active_flag c10_session 7 5 { quantity := 3 }
    { id := 5, cart_id := 1, product_id := 1, quantity := 2, price_at_add := 100 }
    { id := 1, name := "P", price := 100, stock := 10, is_active := false }
    rfl rfl (by decide)⟩

/-- Unfolding `total_quantity` over the head line. -/
theorem total_quantity_cons (ci : CartItem) (rest : List CartItem) (pid : Nat) :
    total_quantity (ci :: rest) pid =
      (if ci.product_id == pid then (ci.quantity : Int) else 0) +
        total_quantity rest pid := by
  unfold total_quantity
  by_cases h : ci.product_id = pid
  · simp [List.filter_cons, h]
  · simp [List.filter_cons, beq_eq_false_iff_ne.mpr h]

/-- Head line for the looked-up product: its quantity joins the total. -/
theorem total_quantity_cons_eq (ci : CartItem) (rest : List CartItem) (pid : Nat)
    (h : ci.product_id = pid) :
    total_quantity (ci :: rest) pid = (ci.quantity : Int) + total_quantity rest pid := by
  rw [total_quantity_cons, if_pos (beq_iff_eq.mpr h)]

/-- Head line for a different product: the total is the tail's. -/
theorem total_quantity_cons_ne (ci : CartItem) (rest : List CartItem) (pid : Nat)
    (h : ci.product_id ≠ pid) :
    total_quantity (ci :: rest) pid = total_quantity rest pid := by
  rw [total_quantity_cons, if_neg (by simp [h])]
  exact zero_add _

/-- Lines for an absent product contribute nothing. -/
theorem total_quantity_eq_zero (rest : List CartItem) (pid : Nat)
    (h : pid ∉ rest.map (fun ci => ci.product_id)) :
    total_quantity rest pid = 0 := by
  induction rest with
  | nil => rfl
  | cons a l ih =>
    rw [total_quantity_cons]
    have h1 : a.product_id ≠ pid := fun hc => h (by simp [← hc])
    rw [if_neg (by simp [h1]), ih (fun hc => h (by simp; exact .inr (by simpa using hc)))]
    simp

/-- With pairwise-distinct product references, the loop's total for a line's
product is exactly that line's quantity. -/
theorem total_quantity_eq_of_nodup (items : List CartItem)
    (hnd : (items.map (fun ci => ci.product_id)).Nodup)
    (ci : CartItem) (hci : ci ∈ items) :
    total_quantity items ci.product_id = (ci.quantity : Int) := by
  induction items with
  | nil => cases hci
  | cons a rest ih =>
    rw [total_quantity_cons]
    have hnd2 : a.product_id ∉ rest.map (fun ci => ci.product_id) ∧
        (rest.map (fun ci => ci.product_id)).Nodup := by
      rw [List.map_cons] at hnd
      exact List.nodup_cons.mp hnd
    rcases List.mem_cons.mp hci with rfl | hmem
    · rw [if_pos (by simp)]
      rw [total_quantity_eq_zero rest ci.product_id hnd2.1]
      simp
    · have hne : a.product_id ≠ ci.product_id := by
        intro hc
        exact hnd2.1 (hc ▸ List.mem_map_of_mem _ hmem)
      rw [if_neg (by simp [hne]), ih hnd2.2 hmem]
      simp

/-- A single-product stock write leaves the lookup of every other product
untouched. -/
theorem find?_map_update_stock_ne (l : List Product) (pid0 : Nat) (v : Int)
    (pid : Nat) (h : pid ≠ pid0) :
    (l.map (fun p => if p.id == pid0 then { p with stock := v } else p)).find?
        (fun p => p.id == pid) =
      l.find? (fun p => p.id == pid) := by
  induction l with
  | nil => rfl
  | cons a l ih =>
    simp only [List.map_cons]
    by_cases hap : a.id = pid
    · have ha0 : ¬ a.id = pid0 := fun hc => h (hap ▸ hc)
      rw [if_neg (by simp [ha0])]
      rw [List.find?_cons_of_pos (p := fun x => x.id == pid)
            (List.map (fun x => if x.id == pid0 then { x with stock := v } else x) l)
            (beq_iff_eq.mpr hap),
          List.find?_cons_of_pos (p := fun x => x.id == pid) l (beq_iff_eq.mpr hap)]
    · by_cases ha0 : a.id = pid0
      · rw [if_pos (beq_iff_eq.mpr ha0)]
        rw [List.find?_cons_of_neg (p := fun x => x.id == pid)
              (List.map (fun x => if x.id == pid0 then { x with stock := v } else x) l)
              (a := { a with stock := v }) (by simp [hap]),
            List.find?_cons_of_neg (p := fun x => x.id == pid) l (by simp [hap])]
        exact ih
      · rw [if_neg (by simp [ha0])]
        rw [List.find?_cons_of_neg (p := fun x => x.id == pid)
              (List.map (fun x => if x.id == pid0 then { x with stock := v } else x) l)
              (by simp [hap]),
            List.find?_cons_of_neg (p := fun x => x.id == pid) l (by simp [hap])]
        exact ih

/-- A single-product stock write rewrites exactly that product's lookup. -/
theorem find?_map_update_stock_eq (l : List Product) (pid0 : Nat) (v : Int) :
    (l.map (fun p => if p.id == pid0 then { p with stock := v } else p)).find?
        (fun p => p.id == pid0) =
      (l.find? (fun p => p.id == pid0)).map (fun p => { p with stock := v }) := by
  induction l with
  | nil => rfl
  | cons a l ih =>
    simp only [List.map_cons]
    by_cases ha0 : a.id = pid0
    · rw [if_pos (beq_iff_eq.mpr ha0)]
      rw [List.find?_cons_of_pos (p := fun x => x.id == pid0)
            (List.map (fun x => if x.id == pid0 then { x with stock := v } else x) l)
            (a := { a with stock := v }) (by simp [ha0]),
          List.find?_cons_of_pos (p := fun x => x.id == pid0) l (beq_iff_eq.mpr ha0)]
      rfl
    · rw [if_neg (by simp [ha0])]
      rw [List.find?_cons_of_neg (p := fun x => x.id == pid0)
            (List.map (fun x => if x.id == pid0 then { x with stock := v } else x) l)
            (by simp [ha0]),
          List.find?_cons_of_neg (p := fun x => x.id == pid0) l (by simp [ha0])]
      exact ih

/-- A fully successful stock-decrement loop touches only the products table:
carts, cart items, orders, order items and the id counter pass through. -/
theorem update_stock_frame (items : List CartItem) (sess : Session)
    (h : (update_stock sess items).2 = none) :
    (update_stock sess items).1.current.carts = sess.current.carts ∧
    (update_stock sess items).1.current.cart_items = sess.current.cart_items ∧
    (update_stock sess items).1.current.orders = sess.current.orders ∧
    (update_stock sess items).1.current.order_items = sess.current.order_items ∧
    (update_stock sess items).1.current.next_id = sess.current.next_id := by
  induction items generalizing sess with
  | nil => exact ⟨rfl, rfl, rfl, rfl, rfl⟩
  | cons ci rest ih =>
    unfold update_stock at h ⊢
    cases hp : sess.current.productById ci.product_id with
    | none =>
      rw [hp] at h
      dsimp only at h
      exact Option.noConfusion h
    | some product =>
      rw [hp] at h
      dsimp only at h ⊢
      by_cases hneg : product.stock - (ci.quantity : Int) < 0
      · rw [if_pos hneg] at h; cases h
      · rw [if_neg hneg] at h ⊢
        exact ih _ h

/-- A fully successful stock-decrement loop lowers every product's stock by
the total quantity its cart lines request, and changes nothing else about
any product (lookups are stated through `productById`). -/
theorem update_stock_stocks (items : List CartItem) (sess : Session)
    (h : (update_stock sess items).2 = none) (pid : Nat) :
    (update_stock sess items).1.current.productById pid =
      (sess.current.productById pid).map
        (fun p => { p with stock := p.stock - total_quantity items pid }) := by
  induction items generalizing sess with
  | nil =>
    show sess.current.productById pid = (sess.current.productById pid).map _
    cases hp : sess.current.productById pid with
    | none => rfl
    | some p =>
      show some p = some { p with stock := p.stock - total_quantity [] pid }
      have h0 : total_quantity [] pid = 0 := rfl
      rw [h0, Int.sub_zero]
  | cons ci rest ih =>
    unfold update_stock at h ⊢
    cases hp : sess.current.productById ci.product_id with
    | none =>
      rw [hp] at h
      dsimp only at h
      exact Option.noConfusion h
    | some product =>
      rw [hp] at h
      try dsimp only at h ⊢
      try dsimp only at h
      try dsimp only
      by_cases hneg : product.stock - (ci.quantity : Int) < 0
      · rw [if_pos hneg] at h; cases h
      · rw [if_neg hneg] at h ⊢
        rw [ih _ h]
        have hpid0 : product.id = ci.product_id := by
          have h2 := List.find?_some hp
          simpa using h2
        unfold Store.productById
        dsimp only
        by_cases hpid : pid = ci.product_id
        · have hkey : product.id = pid := hpid0.trans hpid.symm
          simp only [hkey]
          rw [find?_map_update_stock_eq sess.current.products pid
                (product.stock - (ci.quantity : Int))]
          have hp2 : List.find? (fun p => p.id == pid) sess.current.products =
              some product := by
            unfold Store.productById at hp
            simpa only [← hpid] using hp
          rw [hp2]
          simp only [Option.map_some']
          try dsimp only
          rw [total_quantity_cons_eq ci rest pid hpid.symm]
          rw [sub_sub]
        · have hne2 : pid ≠ product.id := fun hc => hpid (hc.trans hpid0)
          rw [find?_map_update_stock_ne sess.current.products product.id
                (product.stock - (ci.quantity : Int)) pid hne2]
          simp only [total_quantity_cons_ne ci rest pid (fun hc => hpid hc.symm)]

/-- Equation-style reformulation of `update_stock_frame`. -/
theorem update_stock_eq_frame {sess sess3 : Session} {items : List CartItem}
    (h : update_stock sess items = (sess3, none)) :
    sess3.current.carts = sess.current.carts ∧
    sess3.current.cart_items = sess.current.cart_items ∧
    sess3.current.orders = sess.current.orders ∧
    sess3.current.order_items = sess.current.order_items ∧
    sess3.current.next_id = sess.current.next_id := by
  have h1 := update_stock_frame items sess (by rw [h])
  rw [h] at h1
  exact h1

/-- Equation-style reformulation of `update_stock_stocks`. -/
theorem update_stock_eq_stocks {sess sess3 : Session} {items : List CartItem}
    (h : update_stock sess items = (sess3, none)) (pid : Nat) :
    sess3.current.productById pid =
      (sess.current.productById pid).map
        (fun p => { p with stock := p.stock - total_quantity items pid }) := by
  have h1 := update_stock_stocks items sess (by rw [h]) pid
  rw [h] at h1
  exact h1

/-- `get_or_create_cart` never touches the cart item rows. -/
theorem get_or_create_cart_cart_items (sess : Session) (u : Nat) :
    (get_or_create_cart sess u).1.current.cart_items = sess.current.cart_items := by
  unfold get_or_create_cart
  split <;> rfl

/-- `get_or_create_cart` only ever advances the autoincrement counter. -/
theorem get_or_create_cart_next_id (sess : Session) (u : Nat) :
    sess.current.next_id ≤ (get_or_create_cart sess u).1.current.next_id := by
  unfold get_or_create_cart
  split
  · exact Nat.le_refl _
  · exact Nat.le_succ _

/-- Replacing a row by primary key leaves the multiset of primary keys
untouched, position by position. -/
theorem replaceCartItem_map_ids (l : List CartItem) (it : CartItem) :
    (replaceCartItem l it).map (fun ci => ci.id) = l.map (fun ci => ci.id) := by
  unfold replaceCartItem
  rw [List.map_map]
  apply List.map_congr_left
  intro a _
  by_cases h : a.id = it.id
  · simp [Function.comp, h]
  · simp [Function.comp, beq_eq_false_iff_ne.mpr h]

/-- Replacing the row `e` by a copy of `e` with a new quantity leaves the
(cart, product) pair of every position untouched, provided primary keys are
unique (so no other row shares `e`'s key). -/
theorem replaceCartItem_map_pairs (l : List CartItem) (e : CartItem) (q : Nat)
    (hids : (l.map (fun ci => ci.id)).Nodup) (he : e ∈ l) :
    (replaceCartItem l { e with quantity := q }).map
        (fun ci => (ci.cart_id, ci.product_id)) =
      l.map (fun ci => (ci.cart_id, ci.product_id)) := by
  unfold replaceCartItem
  rw [List.map_map]
  apply List.map_congr_left
  intro a ha
  by_cases h : a.id = e.id
  · have hae : a = e := List.inj_on_of_nodup_map hids ha he h
    subst hae
    simp [Function.comp]
  · simp [Function.comp, beq_eq_false_iff_ne.mpr h]

/-- C6: `add_item` preserves the at-most-one-row-per-(cart, product)
invariant — together with the primary-key invariants that make it iterate
over arbitrary call sequences — and whenever it succeeds while some row
with the resulting row's (cart, product) pair already existed, the
resulting row carries that row's quantity plus the requested quantity
(aggregation in place, never a second row). -/
theorem C6_at_most_one_line_per_pair
    (sess : Session) (user_id : Nat) (d : CartItemCreate)
    (hwf : cart_items_wf sess.current) :
    cart_items_wf (add_item sess user_id d).1.current ∧
    (∀ it, (add_item sess user_id d).2 = .ok it →
      ∀ e ∈ sess.current.cart_items,
        e.cart_id = it.cart_id → e.product_id = it.product_id →
          it.quantity = e.quantity + d.quantity) := by
  obtain ⟨hids, hbound, hpairs⟩ := hwf
  unfold add_item
  split
  · exact ⟨⟨hids, hbound, hpairs⟩, fun it h => Except.noConfusion h⟩
  next p hp =>
    split
    · exact ⟨⟨hids, hbound, hpairs⟩, fun it h => Except.noConfusion h⟩
    next hstock1 =>
      dsimp only
      split
      next e' hfind =>
        rw [get_or_create_cart_cart_items] at hfind
        have he' : e' ∈ sess.current.cart_items := List.mem_of_find?_eq_some hfind
        split
        next hstock2 =>
          refine ⟨⟨?_, ?_, ?_⟩, fun it h => Except.noConfusion h⟩
          · rw [get_or_create_cart_cart_items]
            exact hids
          · intro ci hci
            rw [get_or_create_cart_cart_items] at hci
            exact lt_of_lt_of_le (hbound ci hci) (get_or_create_cart_next_id sess user_id)
          · rw [get_or_create_cart_cart_items]
            exact hpairs
        next hstock2 =>
          constructor
          · dsimp only [Session.commit]
            refine ⟨?_, ?_, ?_⟩
            · rw [get_or_create_cart_cart_items, replaceCartItem_map_ids]
              exact hids
            · intro ci hci
              rw [get_or_create_cart_cart_items] at hci
              have h1 : ci.id ∈ (replaceCartItem sess.current.cart_items
                  { e' with quantity := e'.quantity + d.quantity }).map
                    (fun ci => ci.id) :=
                List.mem_map_of_mem _ hci
              rw [replaceCartItem_map_ids] at h1
              obtain ⟨a, ha, haid⟩ := List.mem_map.mp h1
              rw [← haid]
              exact lt_of_lt_of_le (hbound a ha) (get_or_create_cart_next_id sess user_id)
            · rw [get_or_create_cart_cart_items,
                replaceCartItem_map_pairs sess.current.cart_items e' _ hids he']
              exact hpairs
          · intro it hok e he h1 h2
            have hit : ({ e' with quantity := e'.quantity + d.quantity } : CartItem) = it :=
              Except.ok.inj hok
            have hee' : e = e' := by
              apply List.inj_on_of_nodup_map hpairs he he'
              rw [← hit] at h1 h2
              exact Prod.ext h1 h2
            rw [← hit, hee']
      next hfind =>
        rw [get_or_create_cart_cart_items] at hfind
        constructor
        · dsimp only [Session.commit]
          refine ⟨?_, ?_, ?_⟩
          · rw [get_or_create_cart_cart_items, List.map_append]
            refine List.nodup_append.mpr ⟨hids, List.nodup_singleton _, ?_⟩
            intro a ha ha2
            obtain ⟨ci, hci, hcid⟩ := List.mem_map.mp ha
            have hlt : a < sess.current.next_id := hcid ▸ hbound ci hci
            have ha3 : a = (get_or_create_cart sess user_id).1.current.next_id := by
              simpa using ha2
            exact absurd (lt_of_lt_of_le hlt (get_or_create_cart_next_id sess user_id))
              (by rw [ha3]; exact lt_irrefl _)
          · intro ci hci
            rw [get_or_create_cart_cart_items] at hci
            rcases List.mem_append.mp hci with hold | hnew
            · exact lt_of_lt_of_le (hbound ci hold)
                (Nat.le_succ_of_le (get_or_create_cart_next_id sess user_id))
            · have hc2 := List.mem_singleton.mp hnew
              rw [hc2]
              exact Nat.lt_succ_self _
          · rw [get_or_create_cart_cart_items, List.map_append]
            refine List.nodup_append.mpr ⟨hpairs, List.nodup_singleton _, ?_⟩
            intro a ha ha2
            obtain ⟨ci, hci, hcid⟩ := List.mem_map.mp ha
            have ha3 : a = ((get_or_create_cart sess user_id).2.id, d.product_id) := by
              simpa using ha2
            have hpred := List.find?_eq_none.mp hfind ci hci
            apply hpred
            have hpair : ci.cart_id = (get_or_create_cart sess user_id).2.id ∧
                ci.product_id = d.product_id := by
              have := hcid.trans ha3
              exact ⟨congrArg Prod.fst this, congrArg Prod.snd this⟩
            simp [hpair.1, hpair.2]
        · intro it hok e he h1 h2
          have hit := Except.ok.inj hok
          have hpred := List.find?_eq_none.mp hfind e he
          exfalso
          apply hpred
          rw [← hit] at h1 h2
          simp only at h1 h2
          simp [h1, h2]

/-- C5: a successful checkout — for a cart whose lines reference pairwise
distinct products, the invariant `add_item` maintains — appends exactly one
order, created with status PENDING for the requesting user, leaves the
user's cart with zero items, and decrements each referenced product's stock
by exactly its line's quantity, all visible in the committed store. -/
theorem C5_checkout_side_effects
    (sess : Session) (user_id : Nat) (cart : Cart) (ret : Option Order)
    (hcart : sess.current.cartOf user_id = some cart)
    (hnd : ((sess.current.itemsOfCart cart.id).map (fun ci => ci.product_id)).Nodup)
    (hok : (create_order sess user_id).2 = .ok ret) :
    (∃ o, (create_order sess user_id).1.committed.orders =
        sess.current.orders ++ [o] ∧ o.user_id = user_id ∧
        o.status = OrderStatus.PENDING) ∧
    (create_order sess user_id).1.committed.itemsOfCart cart.id = [] ∧
    (∀ ci ∈ sess.current.itemsOfCart cart.id,
      (create_order sess user_id).1.committed.productById ci.product_id =
        (sess.current.productById ci.product_id).map
          (fun p => { p with stock := p.stock - (ci.quantity : Int) })) := by
  unfold create_order at hok ⊢
  rw [hcart] at hok ⊢
  dsimp only at hok ⊢
  cases hl : (sess.current.itemsOfCart cart.id).getLast? with
  | none =>
    rw [hl] at hok
    dsimp only at hok
    exact Except.noConfusion hok
  | some last_line =>
    rw [hl] at hok
    try dsimp only at hok ⊢
    try dsimp only at hok
    cases hv : (sess.current.itemsOfCart cart.id).findSome? (check_line sess.current) with
    | some e =>
      rw [hv] at hok
      dsimp only at hok
      exact Except.noConfusion hok
    | none =>
      rw [hv] at hok
      try dsimp only at hok ⊢
      try dsimp only at hok
      split at hok
      next sess3 e heq =>
        dsimp only at hok
        exact Except.noConfusion hok
      next sess3 heq =>
        dsimp only [Session.commit]
        have hf := update_stock_eq_frame heq
        have hcarts : sess3.current.carts = sess.current.carts := hf.1
        have horders : sess3.current.orders = sess.current.orders ++
            [{ id := sess.current.next_id, user_id := user_id,
               total_price := order_total (sess.current.itemsOfCart cart.id),
               status := OrderStatus.PENDING }] := hf.2.2.1
        have hc3 : sess3.current.cartOf user_id = some cart := by
          unfold Store.cartOf
          rw [hcarts]
          exact hcart
        unfold clear_cart
        rw [hc3]
        dsimp only [Session.commit]
        refine ⟨⟨_, horders, rfl, rfl⟩, ?_, ?_⟩
        · unfold Store.itemsOfCart
          dsimp only
          rw [List.filter_eq_nil_iff]
          intro a ha
          have h2 := (List.mem_filter.mp ha).2
          simp only [Bool.not_eq_true'] at h2
          simp [h2]
        · intro ci hci
          have hst := update_stock_eq_stocks heq ci.product_id
          simp only [total_quantity_eq_of_nodup _ hnd ci hci] at hst
          exact hst

/-- C5, witness: checking out user 7's cart holding product 1 ("P", stock
10) with quantity 2 leaves the committed store with the cart empty,
product 1 at stock exactly 8, and one PENDING order for user 7 totalling
2.00. -/
theorem C5_checkout_side_effects_witness :
    (create_order c5_session 7).1.committed.itemsOfCart 1 = [] ∧
    (create_order c5_session 7).1.committed.productById 1 =
      some { id := 1, name := "P", price := 100, stock := 8, is_active := true } ∧
    (create_order c5_session 7).1.committed.orders =
      [ { id := 3, user_id := 7, total_price := 200, status := OrderStatus.PENDING } ] := by
  have h := C5_checkout_side_effects c5_session 7 { id := 1, user_id := 7 }
      (some { id := 3, user_id := 7, total_price := 200, status := OrderStatus.PENDING })
      rfl (by decide) rfl
  refine ⟨h.2.1, ?_, rfl⟩
  have h2 := h.2.2
    { id := 2, cart_id := 1, product_id := 1, quantity := 2, price_at_add := 100 }
    (by decide)
  exact h2.trans (by decide)

/-- C6, witness: adding product 1 with quantity 2 (already materialised in
`c6_store`) and then quantity 3 yields exactly one row for the pair — the
invariant still holds afterwards — and that row's quantity is 5. -/
theorem C6_at_most_one_line_per_pair_witness :
    cart_items_wf c6_session.current ∧
    cart_items_wf (add_item c6_session 7 { product_id := 1, quantity := 3 }).1.current ∧
    (add_item c6_session 7 { product_id := 1, quantity := 3 }).1.current.cart_items =
      [ { id := 2, cart_id := 1, product_id := 1, quantity := 5, price_at_add := 100 } ] :=
  ⟨by refine ⟨by decide, ?_, by decide⟩; decide,
   (C6_at_most_one_line_per_pair c6_session 7 { product_id := 1, quantity := 3 }
     ⟨by decide, by decide, by decide⟩).1,
   rfl⟩

/-- C7: an aggregating `add_item` for a product already in the cart mutates
only that line's quantity.  The returned (and stored) row is literally the
existing row `e` with `quantity := e.quantity + d.quantity`: its
`price_at_add` and its product reference are `e`'s values from the first
add — the live product `p`, whose current price is unconstrained here and
may differ arbitrarily from `e.price_at_add`, contributes nothing to the
updated row — and every other cart row survives unchanged. -/
theorem C7_aggregating_add_preserves_price_at_add
    (sess : Session) (user_id : Nat) (d : CartItemCreate) (cart : Cart)
    (e : CartItem) (p : Product)
    (hprod : sess.current.products.find?
      (fun q => q.id == d.product_id && q.is_active) = some p)
    (hstock1 : (d.quantity : Int) ≤ p.stock)
    (hcart : sess.current.cartOf user_id = some cart)
    (hfind : sess.current.cart_items.find?
      (fun ci => ci.cart_id == cart.id && ci.product_id == d.product_id) = some e)
    (hstock2 : ((e.quantity + d.quantity : Nat) : Int) ≤ p.stock) :
    (add_item sess user_id d).2 =
      .ok { e with quantity := e.quantity + d.quantity } ∧
    (∀ ci ∈ sess.current.cart_items, ci.id ≠ e.id →
      ci ∈ (add_item sess user_id d).1.current.cart_items) := by
  unfold add_item
  rw [hprod]
  dsimp only
  rw [if_neg (not_lt.mpr hstock1)]
  unfold get_or_create_cart
  rw [hcart]
  dsimp only
  rw [hfind]
  dsimp only
  rw [if_neg (not_lt.mpr hstock2)]
  refine ⟨rfl, ?_⟩
  intro ci hci hne
  have hbeq : (ci.id == e.id) = false := beq_eq_false_iff_ne.mpr hne
  unfold replaceCartItem
  refine List.mem_map.mpr ⟨ci, hci, ?_⟩
  simp [hbeq]

/-- C7, witness: with the catalog price of product 1 now 9.99 but the line
added at 1.00, aggregating 3 more onto the existing quantity 2 returns the
line with quantity 5 and `price_at_add` still 1.00, and leaves the other
cart line (id 3) in place. -/
theorem C7_aggregating_add_preserves_price_at_add_witness :
    ((c7_store.productById 1).map Product.price = some 999 ∧
      (999 : Decimal) ≠ 100) ∧
    (add_item c7_session 7 { product_id := 1, quantity := 3 }).2 =
      .ok { id := 2, cart_id := 1, product_id := 1, quantity := 5, price_at_add := 100 } ∧
    ({ id := 3, cart_id := 1, product_id := 4, quantity := 1, price_at_add := 50 } : CartItem) ∈
      (add_item c7_session 7 { product_id := 1, quantity := 3 }).1.current.cart_items := by
  have h := C7_aggregating_add_preserves_price_at_add c7_session 7
    { product_id := 1, quantity := 3 } { id := 1, user_id := 7 }
    { id := 2, cart_id := 1, product_id := 1, quantity := 2, price_at_add := 100 }
    { id := 1, name := "P", price := 999, stock := 10, is_active := true }
    rfl (by decide) rfl rfl (by decide)
  exact ⟨⟨rfl, by decide⟩, h.1,
    h.2 { id := 3, cart_id := 1, product_id := 4, quantity := 1, price_at_add := 50 }
      (by decide) (by decide)⟩

/-- C8, amended: with schema-valid request bodies (1 ≤ quantity ≤ 100,
enforced by the Pydantic schemas), every cart row keeps quantity ≥ 1 across
`add_item` and `update_item_quantity`; a row set by `update_item_quantity`
has quantity ≤ 100; and a successful `add_item` either creates a row with
exactly the requested quantity (hence ≤ 100) or aggregates onto an existing
row, setting old + requested — which the code bounds only by the product's
stock, not by 100. -/
theorem C8_quantity_bounds_amended
    (sess : Session) (user_id item_id : Nat) (d : CartItemCreate) (du : CartItemUpdate)
    (hd : schema_valid_create d) (hdu : schema_valid_update du)
    (hq : ∀ ci ∈ sess.current.cart_items, 1 ≤ ci.quantity) :
    (∀ ci ∈ (add_item sess user_id d).1.current.cart_items, 1 ≤ ci.quantity) ∧
    (∀ ci ∈ (update_item_quantity sess user_id item_id du).1.current.cart_items,
        1 ≤ ci.quantity) ∧
    (∀ it, (update_item_quantity sess user_id item_id du).2 = .ok it →
        it.quantity ≤ 100) ∧
    (∀ it, (add_item sess user_id d).2 = .ok it →
        it.quantity = d.quantity ∨
        ∃ e ∈ sess.current.cart_items, it.quantity = e.quantity + d.quantity) := by
  refine ⟨?_, ?_, ?_, ?_⟩
  · unfold add_item
    split
    · exact hq
    next p hp =>
      split
      · exact hq
      next hstock1 =>
        dsimp only
        split
        next e' hfind =>
          split
          next hstock2 =>
            intro ci hci
            rw [get_or_create_cart_cart_items] at hci
            exact hq ci hci
          next hstock2 =>
            dsimp only [Session.commit]
            intro ci hci
            rw [get_or_create_cart_cart_items] at hci
            unfold replaceCartItem at hci
            obtain ⟨a, ha, hfa⟩ := List.mem_map.mp hci
            split at hfa
            · rw [← hfa]
              exact le_trans hd.1 (Nat.le_add_left _ _)
            · rw [← hfa]
              exact hq a ha
        next hfind =>
          dsimp only [Session.commit]
          intro ci hci
          rw [get_or_create_cart_cart_items] at hci
          rcases List.mem_append.mp hci with hold | hnew
          · exact hq ci hold
          · rw [List.mem_singleton.mp hnew]
            exact hd.1
  · unfold update_item_quantity
    split
    · exact hq
    next ci0 hfind =>
      split
      · exact hq
      next p hp =>
        split
        · exact hq
        next hstock =>
          dsimp only [Session.commit]
          intro ci hci
          unfold replaceCartItem at hci
          obtain ⟨a, ha, hfa⟩ := List.mem_map.mp hci
          split at hfa
          · rw [← hfa]
            exact hdu.1
          · rw [← hfa]
            exact hq a ha
  · unfold update_item_quantity
    split
    · exact fun it h => Except.noConfusion h
    next ci0 hfind =>
      split
      · exact fun it h => Except.noConfusion h
      next p hp =>
        split
        · exact fun it h => Except.noConfusion h
        next hstock =>
          intro it hok
          rw [← Except.ok.inj hok]
          exact hdu.2
  · unfold add_item
    split
    · exact fun it h => Except.noConfusion h
    next p hp =>
      split
      · exact fun it h => Except.noConfusion h
      next hstock1 =>
        dsimp only
        split
        next e' hfind =>
          split
          next hstock2 => exact fun it h => Except.noConfusion h
          next hstock2 =>
            intro it hok
            rw [get_or_create_cart_cart_items] at hfind
            exact .inr ⟨e', List.mem_of_find?_eq_some hfind,
              by rw [← Except.ok.inj hok]⟩
        next hfind =>
          intro it hok
          exact .inl (by rw [← Except.ok.inj hok])

/-- C8, amended, witness: starting from the one-line cart of `c6_store`
(quantity 2), an aggregating add of 3 keeps every row's quantity ≥ 1, and
any successful quantity update to 4 yields a row with quantity ≤ 100. -/
theorem C8_quantity_bounds_amended_witness :
    (∀ ci ∈ (add_item c6_session 7 { product_id := 1, quantity := 3 }).1.current.cart_items,
        1 ≤ ci.quantity) ∧
    (∀ it, (update_item_quantity c6_session 7 2 { quantity := 4 }).2 = .ok it →
        it.quantity ≤ 100) := by
  have h := C8_quantity_bounds_amended c6_session 7 2
    { product_id := 1, quantity := 3 } { quantity := 4 }
    ⟨by decide, by decide⟩ ⟨by decide, by decide⟩ (by decide)
  exact ⟨h.1, h.2.2.1⟩

/-- C1: refuted by evaluating the embedded `create_order` on the two-line
cart of `demo_store`.  The checkout succeeds, but the two OrderItems it
persists are BOTH snapshots of the second (last) cart line — product 2,
name "B", quantity 2, price 50.00 — because the snapshot loop's body reads
the stale validation-loop variable; the first line (product 1, quantity 3,
price 100.00) is never snapshotted. -/
theorem C1_snapshot_loop_copies_last_line :
    (create_order demo_session 7).2 =
      .ok (some { id := 3, user_id := 7, total_price := 40000, status := .PENDING }) ∧
    (create_order demo_session 7).1.committed.order_items =
      [ { order_id := 3, product_id := 2, product_name := "B", quantity := 2, price := 5000 },
        { order_id := 3, product_id := 2, product_name := "B", quantity := 2, price := 5000 } ] :=
  ⟨rfl, rfl⟩

/-- C3: refuted on the same two-line cart.  The order row is created with
`total_price` 400.00 (the correct sum over the CART lines), but the sum of
`price × quantity` over the OrderItems actually persisted for that order is
200.00 — two copies of the last line — so the claimed invariant
`total_price = sum of the order's items` fails. -/
theorem C3_total_price_diverges_from_items :
    (create_order demo_session 7).1.committed.orders =
      [ { id := 3, user_id := 7, total_price := 40000, status := .PENDING } ] ∧
    order_items_total (create_order demo_session 7).1.committed 3 = 20000 ∧
    (40000 : Decimal) ≠ 20000 :=
  ⟨rfl, rfl, by decide⟩

/-- C8, counterexample: two schema-valid `add_item` calls (quantity 100
each, within the Pydantic per-request bound) against a product with stock
200 both succeed, and the aggregating second call leaves the single cart
line with quantity 200 > 100 in the committed store — so the claimed
invariant `quantity ≤ 100` does not hold for all reachable cart items. -/
theorem C8_aggregating_add_exceeds_100 :
    schema_valid_create { product_id := 1, quantity := 100 } ∧
    c8_after_two_adds.2 =
      .ok { id := 2, cart_id := 1, product_id := 1, quantity := 200, price_at_add := 100 } ∧
    c8_after_two_adds.1.committed.cart_items =
      [ { id := 2, cart_id := 1, product_id := 1, quantity := 200, price_at_add := 100 } ] ∧
    ¬ (200 ≤ 100) :=
  ⟨⟨by decide, by decide⟩, rfl, rfl, by decide⟩

end ECommerce
